import Mathlib

/-!
Shallow embedding of `ReactCommon/utils/ContextContainer.h`: a general
purpose dependency-injection container mapping string keys to type-erased,
reference-counted values, with a debug-only parallel map of type hashes.

Modelling choices:
* C++ template type parameters `T` are represented by their
  `typeid(T).hash_code()`, a `Nat` (distinct types are assumed to have
  distinct hash codes, as the code itself assumes).  The payload of a
  stored instance is a value of an abstract Lean type `Val` together with
  the hash of its dynamic type (`StoredInstance`), so that the soundness of
  `static_pointer_cast` can be expressed.
* `better::map` (a `std::map`) is an association list with unique keys;
  `insert` does not overwrite an existing key, `find` returns an optional,
  `at` throws on a missing key.
* The `NDEBUG` build switch is a `debug : Bool` parameter: `debug = true`
  means assertions and the `typeHashes_` map are compiled in.
* Every operation returns an `Outcome` paired with the container state
  after the call.  A failed `assert` aborts the process: it is modelled as
  the `assertionFailure` outcome returned together with the state at the
  moment of the abort (no further mutation happens).  `exceptionThrown`
  models a C++ exception escaping the call (e.g. `std::out_of_range` from
  `map::at`), and `undefinedCast` models the undefined behaviour of
  dereferencing a `static_pointer_cast` to the wrong type.
-/

/-- Result of executing one container operation. -/
inductive Outcome (α : Type) where
  /-- The operation returned normally with a value. -/
  | ok : α → Outcome α
  /-- A debug `assert` fired: fatal, unrecoverable diagnostic failure. -/
  | assertionFailure : String → Outcome α
  /-- A C++ exception escaped the call (e.g. `std::out_of_range`). -/
  | exceptionThrown : String → Outcome α
  /-- Undefined behaviour: dereferencing a pointer cast to the wrong type. -/
  | undefinedCast : Outcome α
deriving DecidableEq

namespace Outcome

/-- Map a function over the normal-return value of an outcome. -/
def map {α β : Type} (f : α → β) : Outcome α → Outcome β
  | ok a => ok (f a)
  | assertionFailure m => assertionFailure m
  | exceptionThrown m => exceptionThrown m
  | undefinedCast => undefinedCast

end Outcome

/-- A type-erased stored instance: the `shared_ptr<void>` in the source,
together with the hash code of the dynamic type of the object it points
to (intrinsic to the heap object, not the `typeHashes_` bookkeeping). -/
structure StoredInstance (Val : Type) where
  typeHash : Nat
  payload : Val
deriving DecidableEq

/-- `find` on a `better::map`, as an association list: first binding wins
(reachable maps have unique keys). -/
def mapFind {α : Type} (m : List (String × α)) (k : String) : Option α :=
  m.lookup k

/-- `insert` on a `better::map` (`std::map::insert`): inserts only when the
key is absent, and never overwrites an existing binding. -/
def mapInsert {α : Type} (m : List (String × α)) (k : String) (v : α) :
    List (String × α) :=
  match mapFind m k with
  | some _ => m
  | none => m ++ [(k, v)]

/-- The state of a `ContextContainer`: `instances_` and the debug-only
`typeHashes_` map (present in the model, untouched when `debug = false`,
mirroring `#ifndef NDEBUG`). -/
structure ContextContainer (Val : Type) where
  instances : List (String × StoredInstance Val)
  typeHashes : List (String × Nat)
deriving DecidableEq

namespace ContextContainer

/-- A freshly constructed, empty container. -/
def empty {Val : Type} : ContextContainer Val := ⟨[], []⟩

/-- Message of the duplicate-registration assert in `registerInstance`. -/
def duplicateKeyMsg : String :=
  "ContextContainer already had instance for given key."

/-- Message of the missing-key assert in `getInstance`. -/
def missingKeyMsg : String :=
  "ContextContainer doesn't have an instance for given key."

/-- Message of the type-mismatch assert in `getInstance`/`findInstance`. -/
def typeMismatchMsg : String :=
  "ContextContainer stores an instance of different type for given key."

/-- Message of the `std::out_of_range` exception thrown by `map::at`. -/
def outOfRangeMsg : String := "map::at: key not found"

/-- `*std::static_pointer_cast<T>(p)`: yields the stored payload when the
dynamic type of the object matches the requested type `T` (represented by
`tyHash`), and undefined behaviour otherwise. -/
def castStored {Val : Type} (e : StoredInstance Val) (tyHash : Nat) : Outcome Val :=
  if e.typeHash == tyHash then .ok e.payload else .undefinedCast

/-- `registerInstance<T>(instance, key)`: under the exclusive lock, assert
(debug only) that `key` is absent, insert a heap-allocated copy of the
value into `instances_`, and (debug only) record `typeid(T).hash_code()`
in `typeHashes_`. -/
def registerInstance {Val : Type} (debug : Bool) (c : ContextContainer Val)
    (tyHash : Nat) (value : Val) (key : String) :
    Outcome Unit × ContextContainer Val :=
  if debug && (mapFind c.instances key).isSome then
    (.assertionFailure duplicateKeyMsg, c)
  else
    let c1 : ContextContainer Val :=
      { c with instances := mapInsert c.instances key ⟨tyHash, value⟩ }
    let c2 : ContextContainer Val :=
      if debug then
        { c1 with typeHashes := mapInsert c1.typeHashes key tyHash }
      else c1
    (.ok (), c2)

/-- `getInstance<T>(key)`: under the shared lock, assert (debug only) that
`key` is present and that the recorded type hash matches `T`, then return
`*std::static_pointer_cast<T>(instances_.at(key))`.  With `NDEBUG`, the
asserts vanish and `instances_.at` throws on a missing key. -/
def getInstance {Val : Type} (debug : Bool) (c : ContextContainer Val)
    (tyHash : Nat) (key : String) :
    Outcome Val × ContextContainer Val :=
  if debug then
    match mapFind c.instances key with
    | none => (.assertionFailure missingKeyMsg, c)
    | some e =>
      match mapFind c.typeHashes key with
      | none => (.exceptionThrown outOfRangeMsg, c)
      | some h =>
        if h == tyHash then (castStored e tyHash, c)
        else (.assertionFailure typeMismatchMsg, c)
  else
    match mapFind c.instances key with
    | none => (.exceptionThrown outOfRangeMsg, c)
    | some e => (castStored e tyHash, c)

/-- `findInstance<T>(key)`: under the shared lock, return an empty optional
when `key` is absent; otherwise assert (debug only) that the recorded type
hash matches `T`, then return the cast value wrapped in an optional. -/
def findInstance {Val : Type} (debug : Bool) (c : ContextContainer Val)
    (tyHash : Nat) (key : String) :
    Outcome (Option Val) × ContextContainer Val :=
  match mapFind c.instances key with
  | none => (.ok none, c)
  | some e =>
    if debug then
      match mapFind c.typeHashes key with
      | none => (.exceptionThrown outOfRangeMsg, c)
      | some h =>
        if h == tyHash then ((castStored e tyHash).map some, c)
        else (.assertionFailure typeMismatchMsg, c)
    else ((castStored e tyHash).map some, c)

end ContextContainer

/-! ### Lemmas about the map model -/

namespace ContextContainer

theorem mapFind_nil {α : Type} (k : String) :
    mapFind ([] : List (String × α)) k = none := rfl

theorem mapFind_singleton_self {α : Type} (k : String) (v : α) :
    mapFind [(k, v)] k = some v := by
  simp [mapFind, List.lookup]

theorem mapFind_singleton_of_ne {α : Type} {k k' : String} (v : α)
    (h : k' ≠ k) : mapFind [(k, v)] k' = none := by
  simp [mapFind, List.lookup, beq_false_of_ne h]

theorem mapFind_cons {α : Type} (a k : String) (b : α)
    (t : List (String × α)) :
    mapFind ((a, b) :: t) k = if k == a then some b else mapFind t k := by
  by_cases h : k = a
  · subst h
    simp [mapFind, List.lookup]
  · simp [mapFind, List.lookup, beq_false_of_ne h]

theorem mapFind_append_of_none {α : Type} {m : List (String × α)}
    {k : String} (h : mapFind m k = none) (tail : List (String × α)) :
    mapFind (m ++ tail) k = mapFind tail k := by
  induction m with
  | nil => rfl
  | cons p t ih =>
    obtain ⟨a, b⟩ := p
    rw [mapFind_cons] at h
    rw [List.cons_append, mapFind_cons]
    by_cases hka : k = a
    · subst hka
      simp at h
    · rw [if_neg (by simp [beq_false_of_ne hka])] at h ⊢
      exact ih h

theorem mapFind_append_of_some {α : Type} {m : List (String × α)}
    {k : String} {v : α} (h : mapFind m k = some v)
    (tail : List (String × α)) : mapFind (m ++ tail) k = some v := by
  induction m with
  | nil => simp [mapFind] at h
  | cons p t ih =>
    obtain ⟨a, b⟩ := p
    rw [mapFind_cons] at h
    rw [List.cons_append, mapFind_cons]
    by_cases hka : k = a
    · subst hka
      simpa using h
    · rw [if_neg (by simp [beq_false_of_ne hka])] at h ⊢
      exact ih h

theorem mapFind_mapInsert_self {α : Type} {m : List (String × α)}
    {k : String} (h : mapFind m k = none) (v : α) :
    mapFind (mapInsert m k v) k = some v := by
  unfold mapInsert
  rw [h, mapFind_append_of_none h, mapFind_singleton_self]

theorem mapInsert_of_present {α : Type} {m : List (String × α)}
    {k : String} {w : α} (h : mapFind m k = some w) (v : α) :
    mapInsert m k v = m := by
  unfold mapInsert
  rw [h]

theorem mapFind_mapInsert_of_ne {α : Type} (m : List (String × α))
    {k k' : String} (h : k' ≠ k) (v : α) :
    mapFind (mapInsert m k v) k' = mapFind m k' := by
  unfold mapInsert
  cases hm : mapFind m k with
  | some w => rfl
  | none =>
    cases hk' : mapFind m k' with
    | some w => rw [mapFind_append_of_some hk']
    | none => rw [mapFind_append_of_none hk', mapFind_singleton_of_ne _ h]

theorem mapFind_mapInsert_preserve {α : Type} {m : List (String × α)}
    {k : String} {e : α} (h : mapFind m k = some e) (k' : String) (v : α) :
    mapFind (mapInsert m k' v) k = some e := by
  by_cases hkk : k = k'
  · subst hkk
    rw [mapInsert_of_present h, h]
  · rw [mapFind_mapInsert_of_ne m hkk, h]

end ContextContainer

/-! ### Shared characterization lemmas -/

namespace ContextContainer

theorem register_fresh_eq {Val : Type} (debug : Bool)
    (c : ContextContainer Val) (tyHash : Nat) (v : Val) (key : String)
    (hfresh : mapFind c.instances key = none) :
    registerInstance debug c tyHash v key =
      (Outcome.ok (),
       if debug then
         { instances := mapInsert c.instances key ⟨tyHash, v⟩,
           typeHashes := mapInsert c.typeHashes key tyHash }
       else { c with instances := mapInsert c.instances key ⟨tyHash, v⟩ }) := by
  unfold registerInstance
  rw [hfresh]
  cases debug <;> rfl

theorem get_present_matching {Val : Type} (debug : Bool)
    (c : ContextContainer Val) (tyHash : Nat) (v : Val) (key : String)
    (hv : mapFind c.instances key = some ⟨tyHash, v⟩)
    (ht : debug = true → mapFind c.typeHashes key = some tyHash) :
    (getInstance debug c tyHash key).1 = Outcome.ok v := by
  unfold getInstance
  cases debug with
  | false => simp [hv, castStored]
  | true => simp [hv, ht rfl, castStored]

theorem find_present_matching {Val : Type} (debug : Bool)
    (c : ContextContainer Val) (tyHash : Nat) (v : Val) (key : String)
    (hv : mapFind c.instances key = some ⟨tyHash, v⟩)
    (ht : debug = true → mapFind c.typeHashes key = some tyHash) :
    (findInstance debug c tyHash key).1 = Outcome.ok (some v) := by
  unfold findInstance
  cases debug with
  | false => simp [hv, castStored, Outcome.map]
  | true => simp [hv, ht rfl, castStored, Outcome.map]

theorem getInstance_state_eq {Val : Type} (debug : Bool)
    (c : ContextContainer Val) (tyHash : Nat) (key : String) :
    (getInstance debug c tyHash key).2 = c := by
  unfold getInstance
  repeat' split
  all_goals rfl

theorem findInstance_state_eq {Val : Type} (debug : Bool)
    (c : ContextContainer Val) (tyHash : Nat) (key : String) :
    (findInstance debug c tyHash key).2 = c := by
  unfold findInstance
  repeat' split
  all_goals rfl

theorem register_present_eq {Val : Type} (debug : Bool)
    (c : ContextContainer Val) (tyHash : Nat) (v : Val) (key : String)
    {e : StoredInstance Val} (h : mapFind c.instances key = some e) :
    registerInstance debug c tyHash v key =
      (if debug then Outcome.assertionFailure duplicateKeyMsg
       else Outcome.ok (), c) := by
  unfold registerInstance
  cases debug with
  | true => simp [h]
  | false => simp [h, mapInsert_of_present h]

end ContextContainer

/-! ### Claims -/

namespace ContextContainer

/-- C1: for every copyable type `T` (represented by its type hash), value
`v`, and key `k` not previously registered, `registerInstance(v, k)`
returns normally and a subsequent `getInstance<T>(k)` returns a value
equal to `v` (a copy of the stored heap-allocated copy), in every build
mode. -/
theorem registerInstance_getInstance_roundtrip {Val : Type} (debug : Bool)
    (c : ContextContainer Val) (tyHash : Nat) (v : Val) (key : String)
    (hfresh : mapFind c.instances key = none)
    (hfreshTy : mapFind c.typeHashes key = none) :
    (registerInstance debug c tyHash v key).1 = Outcome.ok () ∧
    (getInstance debug (registerInstance debug c tyHash v key).2 tyHash key).1
      = Outcome.ok v := by
  rw [register_fresh_eq debug c tyHash v key hfresh]
  refine ⟨rfl, ?_⟩
  cases debug with
  | true =>
    simp only [if_true]
    exact get_present_matching true _ tyHash v key
      (mapFind_mapInsert_self hfresh ⟨tyHash, v⟩)
      (fun _ => mapFind_mapInsert_self hfreshTy tyHash)
  | false =>
    simp only [Bool.false_eq_true, if_false]
    exact get_present_matching false _ tyHash v key
      (mapFind_mapInsert_self hfresh ⟨tyHash, v⟩)
      (fun hcontra => by cases hcontra)

/-- C2 counterexample: in a release build (`NDEBUG`, so `debug = false`),
registering a second value under an already-used key does NOT trigger the
fatal duplicate-registration condition: the call returns normally, so the
claim's "in every build mode" is false. -/
theorem registerInstance_duplicate_release_not_fatal :
    (registerInstance false
       (registerInstance false (ContextContainer.empty : ContextContainer Nat)
          1 10 "k").2 1 20 "k").1 = Outcome.ok () := by
  decide

/-- C2 (amended): after a first registration under `k`, a further
`registerInstance` for `k` triggers the fatal duplicate-registration
assert in debug builds; in release builds (assertions compiled out) it
returns normally; in both build modes it never overwrites or merges — the
container state is left exactly unchanged. -/
theorem registerInstance_duplicate {Val : Type} (debug : Bool)
    (c : ContextContainer Val) (tyHash : Nat) (v : Val) (key : String)
    (e : StoredInstance Val) (h : mapFind c.instances key = some e) :
    (debug = true →
      (registerInstance debug c tyHash v key).1
        = Outcome.assertionFailure duplicateKeyMsg) ∧
    (debug = false →
      (registerInstance debug c tyHash v key).1 = Outcome.ok ()) ∧
    (registerInstance debug c tyHash v key).2 = c := by
  rw [register_present_eq debug c tyHash v key h]
  cases debug <;> simp

/-- C2 witness. -/
theorem registerInstance_duplicate_witness :
    mapFind ((registerInstance true (ContextContainer.empty :
        ContextContainer Nat) 1 10 "k").2).instances "k" = some ⟨1, 10⟩ ∧
    ((true = true →
      (registerInstance true (registerInstance true (ContextContainer.empty :
          ContextContainer Nat) 1 10 "k").2 2 20 "k").1
        = Outcome.assertionFailure duplicateKeyMsg) ∧
     (true = false →
      (registerInstance true (registerInstance true (ContextContainer.empty :
          ContextContainer Nat) 1 10 "k").2 2 20 "k").1 = Outcome.ok ()) ∧
     (registerInstance true (registerInstance true (ContextContainer.empty :
          ContextContainer Nat) 1 10 "k").2 2 20 "k").2
       = (registerInstance true (ContextContainer.empty :
          ContextContainer Nat) 1 10 "k").2) :=
  ⟨by decide, registerInstance_duplicate true
    (registerInstance true (ContextContainer.empty : ContextContainer Nat)
      1 10 "k").2 2 20 "k" ⟨1, 10⟩ (by decide)⟩

/-- C3: if registration recorded type `A` for a present key, retrieving it
as a distinct type `B` via `getInstance` or `findInstance` triggers the
fatal type-mismatch assert whenever type validation is enabled (debug
builds). -/
theorem type_mismatch_debug_fatal {Val : Type}
    (c : ContextContainer Val) (aHash bHash : Nat) (e : StoredInstance Val)
    (key : String) (hv : mapFind c.instances key = some e)
    (ht : mapFind c.typeHashes key = some aHash) (hne : bHash ≠ aHash) :
    (getInstance true c bHash key).1
      = Outcome.assertionFailure typeMismatchMsg ∧
    (findInstance true c bHash key).1
      = Outcome.assertionFailure typeMismatchMsg := by
  unfold getInstance findInstance
  simp [hv, ht, beq_false_of_ne (Ne.symm hne)]

end ContextContainer

namespace ContextContainer

/-- A small concrete debug-build container: `10 : Nat` registered under
key `"k"` with type hash `1`. -/
def populatedNat : ContextContainer Nat :=
  (registerInstance true ContextContainer.empty 1 10 "k").2

/-- C3 witness. -/
theorem type_mismatch_debug_fatal_witness :
    mapFind populatedNat.instances "k" = some ⟨1, 10⟩ ∧
    mapFind populatedNat.typeHashes "k" = some 1 ∧ (2 : Nat) ≠ 1 ∧
    ((getInstance true populatedNat 2 "k").1
       = Outcome.assertionFailure typeMismatchMsg ∧
     (findInstance true populatedNat 2 "k").1
       = Outcome.assertionFailure typeMismatchMsg) :=
  ⟨by decide, by decide, by decide,
   type_mismatch_debug_fatal populatedNat 1 2 ⟨1, 10⟩ "k"
     (by decide) (by decide) (by decide)⟩

/-- C4: for every key never registered and every type, `getInstance`
never returns a normal value: in debug builds the missing-key assert
fires (fatal diagnostic failure), and in release builds `map::at` throws
`std::out_of_range`. -/
theorem getInstance_missing_fatal {Val : Type} (debug : Bool)
    (c : ContextContainer Val) (tyHash : Nat) (key : String) (v : Val)
    (h : mapFind c.instances key = none) :
    (getInstance debug c tyHash key).1 =
      (if debug then Outcome.assertionFailure missingKeyMsg
       else Outcome.exceptionThrown outOfRangeMsg) ∧
    (getInstance debug c tyHash key).1 ≠ Outcome.ok v := by
  unfold getInstance
  cases debug <;> simp [h]

/-- C4 witness. -/
theorem getInstance_missing_fatal_witness :
    mapFind (ContextContainer.empty : ContextContainer Nat).instances
      "missing" = none ∧
    ((getInstance true (ContextContainer.empty : ContextContainer Nat)
        7 "missing").1 =
      (if true then Outcome.assertionFailure missingKeyMsg
       else Outcome.exceptionThrown outOfRangeMsg) ∧
     (getInstance true (ContextContainer.empty : ContextContainer Nat)
        7 "missing").1 ≠ Outcome.ok 0) :=
  ⟨rfl, getInstance_missing_fatal true ContextContainer.empty 7 "missing" 0 rfl⟩

/-- C5: for every key never registered and every type, `findInstance`
returns the empty optional with the state unchanged — never a value and
never a fatal condition — in every build mode. -/
theorem findInstance_missing_returns_empty {Val : Type} (debug : Bool)
    (c : ContextContainer Val) (tyHash : Nat) (key : String)
    (h : mapFind c.instances key = none) :
    findInstance debug c tyHash key = (Outcome.ok none, c) := by
  unfold findInstance
  rw [h]

/-- C5 witness. -/
theorem findInstance_missing_returns_empty_witness :
    mapFind (ContextContainer.empty : ContextContainer Nat).instances
      "absent" = none ∧
    findInstance false (ContextContainer.empty : ContextContainer Nat)
      3 "absent" = (Outcome.ok none, ContextContainer.empty) :=
  ⟨rfl, findInstance_missing_returns_empty false ContextContainer.empty
    3 "absent" rfl⟩

/-- C6: once a key is present in `instances` with a stored value, every
container operation — any further registration (any key, value, type) and
any lookup — leaves that key associated with exactly that value: keys
transition at most once, from absent to present-and-immutable, and no
operation replaces or removes an entry. -/
theorem entry_immutable_under_all_ops {Val : Type} (debug : Bool)
    (c : ContextContainer Val) (key : String) (e : StoredInstance Val)
    (h : mapFind c.instances key = some e) (tyHash : Nat) (v : Val)
    (k : String) :
    mapFind ((registerInstance debug c tyHash v k).2).instances key
      = some e ∧
    mapFind ((getInstance debug c tyHash k).2).instances key = some e ∧
    mapFind ((findInstance debug c tyHash k).2).instances key = some e := by
  refine ⟨?_, ?_, ?_⟩
  · unfold registerInstance
    split
    · exact h
    · cases debug <;> simp [mapFind_mapInsert_preserve h]
  · rw [getInstance_state_eq]
    exact h
  · rw [findInstance_state_eq]
    exact h

/-- C6 witness. -/
theorem entry_immutable_under_all_ops_witness :
    mapFind populatedNat.instances "k" = some ⟨1, 10⟩ ∧
    (mapFind ((registerInstance true populatedNat 9 99 "other").2).instances
       "k" = some ⟨1, 10⟩ ∧
     mapFind ((getInstance true populatedNat 9 "other").2).instances "k"
       = some ⟨1, 10⟩ ∧
     mapFind ((findInstance true populatedNat 9 "other").2).instances "k"
       = some ⟨1, 10⟩) :=
  ⟨by decide, entry_immutable_under_all_ops true populatedNat "k" ⟨1, 10⟩
    (by decide) 9 99 "other"⟩

/-- C7: `getInstance` and `findInstance` are pure reads: for every build
mode, container state, type, and key, both leave the container state (the
`instances_` and `typeHashes_` maps) unchanged. -/
theorem reads_have_no_side_effects {Val : Type} (debug : Bool)
    (c : ContextContainer Val) (tyHash : Nat) (key : String) :
    (getInstance debug c tyHash key).2 = c ∧
    (findInstance debug c tyHash key).2 = c :=
  ⟨getInstance_state_eq debug c tyHash key,
   findInstance_state_eq debug c tyHash key⟩

/-- C8: `registerInstance` inserts via `map::insert`, which does not
overwrite: when the key is already present, a further call leaves the
previously stored value and its recorded type tag unchanged — the first
registered value wins in every build mode (in debug builds the call also
aborts on the duplicate-key assert before touching the maps). -/
theorem registerInstance_present_first_wins {Val : Type} (debug : Bool)
    (c : ContextContainer Val) (tyHash : Nat) (v : Val) (key : String)
    (e : StoredInstance Val) (h : mapFind c.instances key = some e) :
    mapFind ((registerInstance debug c tyHash v key).2).instances key
      = some e ∧
    mapFind ((registerInstance debug c tyHash v key).2).typeHashes key
      = mapFind c.typeHashes key := by
  rw [register_present_eq debug c tyHash v key h]
  exact ⟨h, rfl⟩

/-- C8 witness. -/
theorem registerInstance_present_first_wins_witness :
    mapFind populatedNat.instances "k" = some ⟨1, 10⟩ ∧
    (mapFind ((registerInstance false populatedNat 5 50 "k").2).instances
       "k" = some ⟨1, 10⟩ ∧
     mapFind ((registerInstance false populatedNat 5 50 "k").2).typeHashes
       "k" = mapFind populatedNat.typeHashes "k") :=
  ⟨by decide, registerInstance_present_first_wins false populatedNat 5 50
    "k" ⟨1, 10⟩ (by decide)⟩

/-- C10: the container performs no validation of the key string:
registering under the empty string succeeds like any other fresh key, in
every build mode, and the value is subsequently retrievable by both
`getInstance` and `findInstance` under that same string. -/
theorem emptyString_key_accepted {Val : Type} (debug : Bool) (tyHash : Nat)
    (v : Val) :
    (registerInstance debug (ContextContainer.empty : ContextContainer Val)
       tyHash v "").1 = Outcome.ok () ∧
    (getInstance debug
       (registerInstance debug ContextContainer.empty tyHash v "").2
       tyHash "").1 = Outcome.ok v ∧
    (findInstance debug
       (registerInstance debug ContextContainer.empty tyHash v "").2
       tyHash "").1 = Outcome.ok (some v) := by
  cases debug <;>
    simp [registerInstance, getInstance, findInstance, ContextContainer.empty,
      mapFind, mapInsert, List.lookup, castStored, Outcome.map]

end ContextContainer

namespace ContextContainer

/-- C1 witness. -/
theorem registerInstance_getInstance_roundtrip_witness :
    mapFind (ContextContainer.empty : ContextContainer Nat).instances
      "Config" = none ∧
    mapFind (ContextContainer.empty : ContextContainer Nat).typeHashes
      "Config" = none ∧
    ((registerInstance true (ContextContainer.empty : ContextContainer Nat)
        5 42 "Config").1 = Outcome.ok () ∧
     (getInstance true
        (registerInstance true (ContextContainer.empty : ContextContainer Nat)
          5 42 "Config").2 5 "Config").1 = Outcome.ok 42) :=
  ⟨rfl, rfl, registerInstance_getInstance_roundtrip true ContextContainer.empty
    5 42 "Config" rfl rfl⟩

end ContextContainer
